import Mathlib

/-!
Verification of the alert-lifecycle and donor-matching core of the
BloodAlertSystem repository.  The definitions below are shallow embeddings of
the JavaScript source: `backend/models/Alert.js`, `backend/models/Donor.js`,
the alert routes (blood-type compatibility table, eligible-donor filter,
sharing endpoints), the donor routes (donor-direction compatibility table,
the respond endpoint), and `backend/services/notificationService.js`.
JavaScript numbers that only ever hold integers are modelled as `Int`;
timestamps are milliseconds since the epoch, as in JS `Date` arithmetic.
-/

namespace BloodAlert

/-- The eight ABO/Rh blood types, as in the `bloodType` / `bloodGroup` enums. -/
inductive BloodType
  | Apos | Aneg | Bpos | Bneg | ABpos | ABneg | Opos | Oneg
deriving DecidableEq, Repr, Fintype

open BloodType

/-- Alert-direction table from `compatibleDonorTypes` in the alert routes
(also duplicated as `compatibleBloodTypes` in `Alert.checkDonorEligibility`):
for an alert requesting blood type X, the list of donor blood groups that may
donate to it. -/
def compatibleDonorTypes : BloodType → List BloodType
  | Apos => [Apos, Aneg, Opos, Oneg]
  | Aneg => [Aneg, Oneg]
  | Bpos => [Bpos, Bneg, Opos, Oneg]
  | Bneg => [Bneg, Oneg]
  | ABpos => [Apos, Aneg, Bpos, Bneg, ABpos, ABneg, Opos, Oneg]
  | ABneg => [Aneg, Bneg, ABneg, Oneg]
  | Opos => [Opos, Oneg]
  | Oneg => [Oneg]

/-- Donor-direction table from `getCompatibleBloodTypes` in the donor routes:
for a donor of blood group X, the list of alert blood types the donor can
help with. -/
def getCompatibleBloodTypes : BloodType → List BloodType
  | Apos => [Apos, ABpos]
  | Aneg => [Apos, Aneg, ABpos, ABneg]
  | Bpos => [Bpos, ABpos]
  | Bneg => [Bpos, Bneg, ABpos, ABneg]
  | ABpos => [ABpos]
  | ABneg => [ABpos, ABneg]
  | Opos => [Apos, Bpos, ABpos, Opos]
  | Oneg => [Apos, Aneg, Bpos, Bneg, ABpos, ABneg, Opos, Oneg]

/-- The ABO component of a blood type. -/
inductive ABOGroup
  | O | A | B | AB
deriving DecidableEq, Repr, Fintype

/-- ABO component of each of the eight types. -/
def BloodType.abo : BloodType → ABOGroup
  | Apos | Aneg => ABOGroup.A
  | Bpos | Bneg => ABOGroup.B
  | ABpos | ABneg => ABOGroup.AB
  | Opos | Oneg => ABOGroup.O

/-- Rh component: `true` for the Rh-positive types. -/
def BloodType.isRhPos : BloodType → Bool
  | Apos | Bpos | ABpos | Opos => true
  | Aneg | Bneg | ABneg | Oneg => false

/-- Modelled from the spec: the standard ABO donation rule (O donates to all,
A to A and AB, B to B and AB, AB only to AB).  Used as the reference chart the
source tables are compared with. -/
def aboDonatesTo : ABOGroup → ABOGroup → Bool
  | ABOGroup.O, _ => true
  | ABOGroup.A, ABOGroup.A | ABOGroup.A, ABOGroup.AB => true
  | ABOGroup.B, ABOGroup.B | ABOGroup.B, ABOGroup.AB => true
  | ABOGroup.AB, ABOGroup.AB => true
  | _, _ => false

/-- Modelled from the spec: the standard full-chart transfusion rule — donor
`d` may give to recipient `r` iff the ABO rule allows it and an Rh-positive
donor only gives to an Rh-positive recipient. -/
def standardDonorCompatible (d r : BloodType) : Bool :=
  aboDonatesTo d.abo r.abo && (!d.isRhPos || r.isRhPos)

/-- A calendar date, as read off a JS `Date` by `getFullYear` / `getMonth` /
`getDate` in the `age` virtual of `Donor.js`. -/
structure SimpleDate where
  year : Int
  month : Int
  day : Int
deriving DecidableEq, Repr

/-- An instant, carrying both the millisecond timestamp (JS `Date` arithmetic)
and its calendar reading (JS `getFullYear` etc.); both faces of the same JS
`Date` value. -/
structure DateTime where
  ms : Int
  date : SimpleDate
deriving DecidableEq, Repr

/-- The `age` virtual of `Donor.js`: whole-years difference, decremented when
the birthday has not yet occurred this year. -/
def computeAge (today birth : SimpleDate) : Int :=
  let age := today.year - birth.year
  let monthDiff := today.month - birth.month
  if monthDiff < 0 || (monthDiff == 0 && today.day < birth.day) then age - 1 else age

/-- `eligibility` subdocument of `Donor.js` (the fields `checkEligibility`
reads).  `temporaryDeferralUntil = none` models an absent `until` date, for
which the JS comparison `until > now` is falsy. -/
structure DonorEligibilityRecord where
  lastDonationDate : Option Int
  temporaryDeferralReason : String
  temporaryDeferralUntil : Option Int
deriving DecidableEq, Repr

/-- `medicalInfo` subdocument fields used by the core. -/
structure MedicalInfo where
  bloodGroup : BloodType
  weight : Int
  hasInfectiousDisease : Bool
deriving DecidableEq, Repr

/-- `preferences.notificationMethods` subdocument of `Donor.js`. -/
structure NotificationMethods where
  email : Bool
  sms : Bool
  push : Bool
deriving DecidableEq, Repr

/-- `preferences` subdocument fields used by matching and dispatch. -/
structure DonorPreferences where
  notificationMethods : NotificationMethods
  maxTravelDistance : Int
  emergencyOnly : Bool
deriving DecidableEq, Repr

/-- Projection of a `Donor` document: the fields read by the eligibility
evaluator, the matching filter and the notification dispatcher.
`donorId` stands for the Mongo `_id`. -/
structure Donor where
  donorId : Nat
  dateOfBirth : SimpleDate
  medicalInfo : MedicalInfo
  eligibility : DonorEligibilityRecord
  preferences : DonorPreferences
deriving DecidableEq, Repr

/-- Result shape of `checkEligibility`. -/
structure EligibilityResult where
  eligible : Bool
  reason : String
deriving DecidableEq, Repr

/-- JS `Math.floor((now - lastDonationDate) / (1000*60*60*24))`: whole days
elapsed, floored (the divisor is positive, so `Int.fdiv` is JS `Math.floor`
of the real quotient). -/
def daysSinceLastDonation (nowMs lastMs : Int) : Int :=
  Int.fdiv (nowMs - lastMs) 86400000

/-- `Donor.checkEligibility` from `Donor.js`: age window, weight, 56-day
donation gap, active temporary deferral, infectious-disease flag — checked in
that order, returning at the first failure. -/
def checkEligibility (d : Donor) (now : DateTime) : EligibilityResult :=
  let age := computeAge now.date d.dateOfBirth
  if age < 18 || age > 65 then
    ⟨false, "Age not within eligible range (18-65)"⟩
  else if d.medicalInfo.weight < 45 then
    ⟨false, "Weight below minimum requirement (45kg)"⟩
  else if gapBlocked d now.ms then
    ⟨false, waitReason d now.ms⟩
  else if deferralActive d now.ms then
    ⟨false, d.eligibility.temporaryDeferralReason⟩
  else if d.medicalInfo.hasInfectiousDisease then
    ⟨false, "Medical condition prevents donation"⟩
  else
    ⟨true, "Eligible for donation"⟩
where
  gapBlocked (d : Donor) (nowMs : Int) : Bool :=
    match d.eligibility.lastDonationDate with
    | some last => daysSinceLastDonation nowMs last < 56
    | none => false
  waitReason (d : Donor) (nowMs : Int) : String :=
    match d.eligibility.lastDonationDate with
    | some last =>
        "Must wait " ++ toString (56 - daysSinceLastDonation nowMs last) ++
          " more days since last donation"
    | none => ""
  deferralActive (d : Donor) (nowMs : Int) : Bool :=
    match d.eligibility.temporaryDeferralUntil with
    | some u => nowMs < u
    | none => false

/-- `status` enum of `Alert.js`. -/
inductive AlertStatus
  | active | partiallyFulfilled | fulfilled | expired | cancelled
deriving DecidableEq, Repr

/-- `urgencyLevel` enum of `Alert.js`. -/
inductive UrgencyLevel
  | low | medium | high | critical
deriving DecidableEq, Repr

/-- `responseType` enum of the `responses` subdocument of `Alert.js`. -/
inductive ResponseType
  | interested | committed | donated | notAvailable | notEligible
deriving DecidableEq, Repr

/-- `donationDetails` subdocument of a response record. -/
structure DonationDetails where
  volume : Int
  date : Int
  location : String
deriving DecidableEq, Repr

/-- `method` enum of the `notifications.sentTo` subdocument, also the three
notification channels of the dispatch coordinator. -/
inductive Channel
  | email | sms | push
deriving DecidableEq, Repr

/-- One entry of `notifications.sentTo` in `Alert.js`. -/
structure SentToRecord where
  donor : Nat
  method : Channel
  sentAt : Int
  opened : Bool
  openedAt : Option Int
  responded : Bool
  respondedAt : Option Int
  response : Option ResponseType
deriving DecidableEq, Repr

/-- One entry of `responses` in `Alert.js`.  `donationCompleted` defaults to
`false` in the schema. -/
structure ResponseRecord where
  donor : Nat
  responseType : ResponseType
  message : Option String
  estimatedArrival : Option Int
  donationCompleted : Bool
  donationDetails : Option DonationDetails
  responseTime : Option Int
  timestamp : Int
deriving DecidableEq, Repr

/-- The `notifications` aggregate of `Alert.js`. -/
structure AlertNotifications where
  sent : Int
  opened : Int
  responded : Int
  sentTo : List SentToRecord
deriving DecidableEq, Repr

/-- `response` enum of the `sharing.sharedWith` subdocument. -/
inductive ShareResponse
  | pending | accepted | declined | partiallyFulfilled
deriving DecidableEq, Repr

/-- One entry of `sharing.sharedWith` in `Alert.js`.  The schema gives the
`response` field an enum but no default, so a freshly pushed record carries no
value for it; that absence is modelled as `none`. -/
structure SharedWithRecord where
  hospital : Nat
  sharedAt : Int
  response : Option ShareResponse
  unitsPromised : Int
  unitsDelivered : Int
  notes : Option String
deriving DecidableEq, Repr

/-- The `sharing` aggregate of `Alert.js`. -/
structure AlertSharing where
  allowSharing : Bool
  sharedWith : List SharedWithRecord
deriving DecidableEq, Repr

/-- The `location` fields of `Alert.js` used by the core (coordinates are
consumed by the geospatial query collaborator and stay abstract). -/
structure AlertLocation where
  searchRadius : Int
deriving DecidableEq, Repr

/-- Projection of an `Alert` document: the fields the core reads and writes. -/
structure Alert where
  alertId : Nat
  hospital : Nat
  bloodType : BloodType
  urgencyLevel : UrgencyLevel
  unitsNeeded : Int
  unitsCollected : Int
  location : AlertLocation
  status : AlertStatus
  notifications : AlertNotifications
  responses : List ResponseRecord
  sharing : AlertSharing
  expiresAt : Int
deriving DecidableEq, Repr

/-- Default `expiresAt` of `Alert.js`: creation time plus 24 hours for a
critical alert, 72 hours otherwise. -/
def defaultExpiresAt (urgencyLevel : UrgencyLevel) (nowMs : Int) : Int :=
  let hours : Int := if urgencyLevel == UrgencyLevel.critical then 24 else 72
  nowMs + hours * 60 * 60 * 1000

/-- `Alert.extendExpiry`: shifts `expiresAt` by the given number of hours. -/
def Alert.extendExpiry (a : Alert) (hours : Int) : Alert :=
  { a with expiresAt := a.expiresAt + hours * 60 * 60 * 1000 }

/-- `Alert.isExpired`: current time strictly past `expiresAt`. -/
def Alert.isExpired (a : Alert) (nowMs : Int) : Bool :=
  a.expiresAt < nowMs

/-- JS `Math.round` on the exact rational value: floor of the value plus one
half (JS rounds half-up). -/
def jsRound (q : ℚ) : ℤ := ⌊q + 1 / 2⌋

/-- `Alert.getResponseRate`: percentage of sent notifications that were
responded to, 0 when none were sent. -/
def Alert.getResponseRate (a : Alert) : ℤ :=
  if a.notifications.sent = 0 then 0
  else jsRound (((a.notifications.responded : ℚ) / (a.notifications.sent : ℚ)) * 100)

/-- `Alert.getConversionRate`: percentage of responses with
`donationCompleted`, 0 when there are no responses. -/
def Alert.getConversionRate (a : Alert) : ℤ :=
  let totalResponses := a.responses.length
  if totalResponses = 0 then 0
  else
    let donations := (a.responses.filter (fun r => r.donationCompleted)).length
    jsRound (((donations : ℚ) / (totalResponses : ℚ)) * 100)

/-- The spread fields of `addResponse`'s `additionalData` argument that the
core reads (the donor respond route passes `message`, `estimatedArrival` and
`contactInfo`; only hypothetical callers would pass `donationDetails`). -/
structure AdditionalData where
  message : Option String
  estimatedArrival : Option Int
  donationDetails : Option DonationDetails
deriving DecidableEq, Repr

/-- Marks the first `sentTo` record of the given donor as responded (JS
`Array.prototype.find` returns the first match, mutated in place). -/
def markNotificationResponded (donorId : Nat) (nowMs : Int) (rt : ResponseType) :
    List SentToRecord → List SentToRecord
  | [] => []
  | n :: rest =>
    if n.donor == donorId then
      { n with responded := true, respondedAt := some nowMs, response := some rt } :: rest
    else n :: markNotificationResponded donorId nowMs rt rest

/-- `Alert.addResponse` from `Alert.js`: builds the response record (with
`responseTime` when a notification had been sent to the donor), appends it,
increments `notifications.responded`, and — only when the response type is
`donated` and donation details were supplied — increments `unitsCollected` and
re-evaluates `status`. -/
def Alert.addResponse (a : Alert) (donorId : Nat) (responseType : ResponseType)
    (additionalData : AdditionalData) (nowMs : Int) : Alert :=
  let notification := a.notifications.sentTo.find? (fun n => n.donor == donorId)
  let responseTime : Option Int :=
    notification.map (fun n => Int.fdiv (nowMs - n.sentAt) 60000)
  let response : ResponseRecord :=
    { donor := donorId
      responseType := responseType
      message := additionalData.message
      estimatedArrival := additionalData.estimatedArrival
      donationCompleted := false
      donationDetails := additionalData.donationDetails
      responseTime := responseTime
      timestamp := nowMs }
  let a :=
    { a with
        notifications :=
          { a.notifications with
              responded := a.notifications.responded + 1
              sentTo := markNotificationResponded donorId nowMs responseType
                a.notifications.sentTo }
        responses := a.responses ++ [response] }
  if responseType == ResponseType.donated && additionalData.donationDetails.isSome then
    let unitsCollected : Int := a.unitsCollected + 1
    let status :=
      if unitsCollected ≥ a.unitsNeeded then AlertStatus.fulfilled
      else if unitsCollected > 0 then AlertStatus.partiallyFulfilled
      else a.status
    { a with unitsCollected := unitsCollected, status := status }
  else a

/-- Failure modes of the donor respond endpoint
(`POST /alerts/:alertId/respond` in the donor routes). -/
inductive RespondError
  | invalidResponseType
  | alertNotActive
  | alreadyResponded
deriving DecidableEq, Repr

/-- Body of a donor respond request (after the not-found lookups). -/
structure RespondRequest where
  responseType : ResponseType
  message : Option String
  estimatedArrival : Option Int
deriving DecidableEq, Repr

/-- The `isIn` list of the route's `responseType` validator: `donated` is not
an accepted input. -/
def allowedDonorResponseTypes : List ResponseType :=
  [ResponseType.interested, ResponseType.committed,
   ResponseType.notAvailable, ResponseType.notEligible]

/-- The donor respond endpoint: validator, active-status check, duplicate
check, then `Alert.addResponse` (the route builds `responseData` without any
`donationDetails`). -/
def respondToAlert (d : Donor) (a : Alert) (req : RespondRequest) (nowMs : Int) :
    Except RespondError Alert :=
  if !(allowedDonorResponseTypes.contains req.responseType) then
    Except.error RespondError.invalidResponseType
  else if a.status != AlertStatus.active then
    Except.error RespondError.alertNotActive
  else if (a.responses.find? (fun r => r.donor == d.donorId)).isSome then
    Except.error RespondError.alreadyResponded
  else
    Except.ok (a.addResponse d.donorId req.responseType
      { message := req.message
        estimatedArrival := req.estimatedArrival
        donationDetails := none } nowMs)

/-- `partnerships[].type` enum of `Hospital.js`. -/
inductive PartnershipType
  | bloodSharing | emergencyBackup | referral
deriving DecidableEq, Repr

/-- One entry of a hospital's `partnerships` list (`status` is the
`active`/`inactive` enum, modelled as a Bool `statusActive`). -/
structure Partnership where
  hospitalId : Nat
  ptype : PartnershipType
  statusActive : Bool
deriving DecidableEq, Repr

/-- Projection of a `Hospital` document: the fields the sharing negotiator
reads. -/
structure Hospital where
  hospitalId : Nat
  partnerships : List Partnership
deriving DecidableEq, Repr

/-- Per-target result entry of the share endpoint. -/
structure ShareOutcome where
  hospitalId : Nat
  success : Bool
  reason : Option String
deriving DecidableEq, Repr

/-- Loop body of `POST /alerts/:alertId/share` for a single target hospital:
partnership check, already-shared check, then push of a sharing record.  The
pushed record is `{hospital, notes}` — the schema supplies defaults for
`sharedAt`, `unitsPromised` and `unitsDelivered`, but `response` has no
default, so the new record's `response` is absent (`none`). -/
def shareWithHospital (requester : Hospital) (a : Alert) (targetId : Nat)
    (message : Option String) (nowMs : Int) : Alert × ShareOutcome :=
  if !(requester.partnerships.any (fun p =>
      p.hospitalId == targetId && p.statusActive &&
        (p.ptype == PartnershipType.bloodSharing ||
         p.ptype == PartnershipType.emergencyBackup))) then
    (a, ⟨targetId, false, some "Hospital is not a partner"⟩)
  else
    if a.sharing.sharedWith.any (fun s => s.hospital == targetId) then
      (a, ⟨targetId, false, some "Alert already shared with this hospital"⟩)
    else
      ({ a with
          sharing :=
            { a.sharing with
                sharedWith := a.sharing.sharedWith ++
                  [{ hospital := targetId
                     sharedAt := nowMs
                     response := none
                     unitsPromised := 0
                     unitsDelivered := 0
                     notes := message }] } },
       ⟨targetId, true, none⟩)

/-- Failure modes of `POST /alerts/:alertId/respond-share`. -/
inductive ShareRespondError
  | invalidResponse
  | notSharedWithHospital
  | alreadyResponded
deriving DecidableEq, Repr

/-- Updates the first sharing record of the given hospital in place (JS `find`
returns the first match, mutated in place).  `unitsPromised` falls back to 0
when absent, per `req.body.unitsPromised || 0`. -/
def updateSharingEntry (hospitalId : Nat) (resp : ShareResponse)
    (unitsPromised : Option Int) (notes : Option String) :
    List SharedWithRecord → List SharedWithRecord
  | [] => []
  | s :: rest =>
    if s.hospital == hospitalId then
      { s with
          response := some resp
          unitsPromised := unitsPromised.getD 0
          notes := notes } :: rest
    else s :: updateSharingEntry hospitalId resp unitsPromised notes rest

/-- `POST /alerts/:alertId/respond-share`: the responding hospital's sharing
record must exist and still read `pending`; the route validator only admits
`accepted`, `declined` and `partially_fulfilled` as inputs. -/
def respondToShare (a : Alert) (responder : Hospital) (resp : ShareResponse)
    (unitsPromised : Option Int) (notes : Option String) :
    Except ShareRespondError Alert :=
  if resp == ShareResponse.pending then
    Except.error ShareRespondError.invalidResponse
  else
    match a.sharing.sharedWith.find? (fun s => s.hospital == responder.hospitalId) with
    | none => Except.error ShareRespondError.notSharedWithHospital
    | some sharingEntry =>
      if sharingEntry.response != some ShareResponse.pending then
        Except.error ShareRespondError.alreadyResponded
      else
        Except.ok
          { a with
              sharing :=
                { a.sharing with
                    sharedWith := updateSharingEntry responder.hospitalId resp
                      unitsPromised notes a.sharing.sharedWith } }

/-- Per-candidate filter of `findEligibleDonors` in the alert routes, applied
to each donor returned by the proximity query, with the source's `continue`
conditions in order: failed re-run eligibility, travel ceiling below the
alert's search radius, already responded on this alert, emergency-only donor
on a non-critical alert. -/
def donorPassesFilters (a : Alert) (now : DateTime) (d : Donor) : Bool :=
  if !(checkEligibility d now).eligible then false
  else if d.preferences.maxTravelDistance < a.location.searchRadius then false
  else if a.responses.any (fun r => r.donor == d.donorId) then false
  else if d.preferences.emergencyOnly && !(a.urgencyLevel == UrgencyLevel.critical) then false
  else true

/-- The filtering stage of `findEligibleDonors`: keeps the candidates from the
proximity query that pass every per-donor check. -/
def findEligibleDonors (a : Alert) (now : DateTime) (candidates : List Donor) : List Donor :=
  candidates.filter (donorPassesFilters a now)

/-- Whether a donor has the given channel enabled in
`preferences.notificationMethods`. -/
def channelEnabled (d : Donor) : Channel → Bool
  | Channel.email => d.preferences.notificationMethods.email
  | Channel.sms => d.preferences.notificationMethods.sms
  | Channel.push => d.preferences.notificationMethods.push

/-- The order in which `sendBloodShortageAlert` attempts the channels. -/
def channelOrder : List Channel := [Channel.email, Channel.sms, Channel.push]

/-- Sent/failed counters of one channel in the dispatch results. -/
structure ChannelCounts where
  sent : Int
  failed : Int
deriving DecidableEq, Repr

/-- The `results` accumulator of `sendBloodShortageAlert`. -/
structure DispatchResults where
  email : ChannelCounts
  sms : ChannelCounts
  push : ChannelCounts
deriving DecidableEq, Repr

/-- The all-zero initial `results` value. -/
def emptyDispatchResults : DispatchResults := ⟨⟨0, 0⟩, ⟨0, 0⟩, ⟨0, 0⟩⟩

/-- The sent counter of one channel. -/
def sentCount (r : DispatchResults) : Channel → Int
  | Channel.email => r.email.sent
  | Channel.sms => r.sms.sent
  | Channel.push => r.push.sent

/-- The failed counter of one channel. -/
def failedCount (r : DispatchResults) : Channel → Int
  | Channel.email => r.email.failed
  | Channel.sms => r.sms.failed
  | Channel.push => r.push.failed

/-- `results.<channel>.sent++`. -/
def bumpSent (r : DispatchResults) : Channel → DispatchResults
  | Channel.email => { r with email := { r.email with sent := r.email.sent + 1 } }
  | Channel.sms => { r with sms := { r.sms with sent := r.sms.sent + 1 } }
  | Channel.push => { r with push := { r.push with sent := r.push.sent + 1 } }

/-- `incrementFailedCount` from `notificationService.js`: bumps the failed
counter of every channel the donor has enabled. -/
def incrementFailedCount (r : DispatchResults) (d : Donor) : DispatchResults :=
  let r := if d.preferences.notificationMethods.email then
    { r with email := { r.email with failed := r.email.failed + 1 } } else r
  let r := if d.preferences.notificationMethods.sms then
    { r with sms := { r.sms with failed := r.sms.failed + 1 } } else r
  if d.preferences.notificationMethods.push then
    { r with push := { r.push with failed := r.push.failed + 1 } } else r

/-- The per-donor `try` block of `sendBloodShortageAlert`: attempts the
donor's enabled channels in order; a successful send bumps that channel's
sent counter; the first failing send (a thrown error, `sendOk = false`) jumps
to the `catch`, which bumps the failed counter of all the donor's enabled
channels and abandons the remaining sends.  Returns the updated results and
whether the block completed without throwing. -/
def sendToDonor (sendOk : Nat → Channel → Bool) (d : Donor) :
    List Channel → DispatchResults → DispatchResults × Bool
  | [], r => (r, true)
  | c :: rest, r =>
    if channelEnabled d c then
      if sendOk d.donorId c then sendToDonor sendOk d rest (bumpSent r c)
      else (incrementFailedCount r d, false)
    else sendToDonor sendOk d rest r

/-- `getPreferredMethod` from `notificationService.js`: first enabled channel
in the order email, sms, push, defaulting to email. -/
def getPreferredMethod (d : Donor) : Channel :=
  if d.preferences.notificationMethods.email then Channel.email
  else if d.preferences.notificationMethods.sms then Channel.sms
  else if d.preferences.notificationMethods.push then Channel.push
  else Channel.email

/-- One iteration of the donor loop of `sendBloodShortageAlert`: runs the
per-donor try block; when it completes, pushes one `sentTo` record with the
donor's preferred method. -/
def dispatchStep (sendOk : Nat → Channel → Bool) (nowMs : Int)
    (acc : Alert × DispatchResults) (d : Donor) : Alert × DispatchResults :=
  let (r, completed) := sendToDonor sendOk d channelOrder acc.2
  if completed then
    ({ acc.1 with
        notifications :=
          { acc.1.notifications with
              sentTo := acc.1.notifications.sentTo ++
                [{ donor := d.donorId
                   method := getPreferredMethod d
                   sentAt := nowMs
                   opened := false
                   openedAt := none
                   responded := false
                   respondedAt := none
                   response := none }] } }, r)
  else (acc.1, r)

/-- `sendBloodShortageAlert` from `notificationService.js`: processes every
donor, then increments `alert.notifications.sent` by the number of donors in
the list (not by the number of messages sent) and persists the alert. -/
def sendBloodShortageAlert (sendOk : Nat → Channel → Bool) (a : Alert)
    (donors : List Donor) (nowMs : Int) : Alert × DispatchResults :=
  let processed := donors.foldl (dispatchStep sendOk nowMs) (a, emptyDispatchResults)
  ({ processed.1 with
      notifications :=
        { processed.1.notifications with
            sent := processed.1.notifications.sent + donors.length } },
   processed.2)

/-! Concrete fixtures used by the scenario parts of the claims and by the
witnesses. -/

/-- A reference creation instant `t0` (milliseconds). -/
def t0 : Int := 1750000000000

/-- The same instant with a calendar reading. -/
def now0 : DateTime := ⟨t0, ⟨2025, 6, 15⟩⟩

/-- A donor passing every eligibility rule at `now0`. -/
def baseDonor : Donor :=
  { donorId := 1
    dateOfBirth := ⟨1990, 1, 10⟩
    medicalInfo := { bloodGroup := BloodType.ABneg, weight := 70, hasInfectiousDisease := false }
    eligibility :=
      { lastDonationDate := none
        temporaryDeferralReason := ""
        temporaryDeferralUntil := none }
    preferences :=
      { notificationMethods := ⟨true, true, true⟩
        maxTravelDistance := 25
        emergencyOnly := false } }

/-- `baseDonor` exactly 56 whole days after a donation. -/
def donor56 : Donor :=
  { baseDonor with
      eligibility := { baseDonor.eligibility with
        lastDonationDate := some (t0 - 56 * 86400000) } }

/-- `baseDonor` 55 whole days after a donation. -/
def donor55 : Donor :=
  { baseDonor with
      eligibility := { baseDonor.eligibility with
        lastDonationDate := some (t0 - 55 * 86400000) } }

/-- A donor below the minimum age. -/
def donorYoung : Donor :=
  { baseDonor with dateOfBirth := ⟨2010, 1, 10⟩ }

/-- The §8 scenario alert: O−, 3 units, critical, created at `t0`. -/
def alert0 : Alert :=
  { alertId := 100
    hospital := 10
    bloodType := BloodType.Oneg
    urgencyLevel := UrgencyLevel.critical
    unitsNeeded := 3
    unitsCollected := 0
    location := ⟨50⟩
    status := AlertStatus.active
    notifications := { sent := 0, opened := 0, responded := 0, sentTo := [] }
    responses := []
    sharing := { allowSharing := true, sharedWith := [] }
    expiresAt := defaultExpiresAt UrgencyLevel.critical t0 }

/-- `additionalData` of a donated response carrying donation details. -/
def donatedData : AdditionalData :=
  { message := none
    estimatedArrival := none
    donationDetails := some { volume := 450, date := t0, location := "City Hospital" } }

/-- `alert0` after two donated responses. -/
def alertAfterTwo : Alert :=
  (alert0.addResponse 2 ResponseType.donated donatedData t0).addResponse 3
    ResponseType.donated donatedData t0

/-- `alert0` after three donated responses. -/
def alertAfterThree : Alert :=
  alertAfterTwo.addResponse 4 ResponseType.donated donatedData t0

/-- The §8 matching scenario: an AB− alert (so `baseDonor` is
blood-compatible) with search radius 50. -/
def alertABneg : Alert :=
  { alert0 with bloodType := BloodType.ABneg }

/-- The §8 matching scenario donor: eligible, blood group AB−, travel ceiling
10 km. -/
def donorTravel10 : Donor :=
  { baseDonor with preferences := { baseDonor.preferences with maxTravelDistance := 10 } }

/-- A requesting hospital holding an active blood-sharing partnership with
hospital 7. -/
def hospitalA : Hospital :=
  { hospitalId := 10
    partnerships := [{ hospitalId := 7, ptype := PartnershipType.bloodSharing, statusActive := true }] }

/-- The partner hospital the alert is shared with. -/
def hospitalB : Hospital :=
  { hospitalId := 7, partnerships := [] }

/-! Theorems. -/

/-- Claim C4: for every one of the 8 alert blood types X,
`compatibleDonorTypes(X)` equals the standard ABO/Rh transfusion compatibility
set for a recipient of type X: O− appears in every set, the set for AB+ is all
8 types, O+ donors appear exactly in the Rh-positive recipients' sets, A/B
donors only in same-letter or AB recipients' sets, and AB− donors only in AB
recipients' sets. -/
theorem compatibleDonorTypes_matches_standard_chart :
    (∀ a d : BloodType, d ∈ compatibleDonorTypes a ↔ standardDonorCompatible d a = true) ∧
    (∀ a : BloodType, Oneg ∈ compatibleDonorTypes a) ∧
    (∀ d : BloodType, d ∈ compatibleDonorTypes ABpos) ∧
    (∀ a : BloodType, Opos ∈ compatibleDonorTypes a ↔ a.isRhPos = true) ∧
    (∀ a : BloodType, Apos ∈ compatibleDonorTypes a ∨ Aneg ∈ compatibleDonorTypes a →
      a.abo = ABOGroup.A ∨ a.abo = ABOGroup.AB) ∧
    (∀ a : BloodType, Bpos ∈ compatibleDonorTypes a ∨ Bneg ∈ compatibleDonorTypes a →
      a.abo = ABOGroup.B ∨ a.abo = ABOGroup.AB) ∧
    (∀ a : BloodType, ABneg ∈ compatibleDonorTypes a → a.abo = ABOGroup.AB) := by
  decide

/-- Claim C4 witness: the chart equivalence and a letter-restriction clause,
instantiated at concrete cells. -/
theorem compatibleDonorTypes_matches_standard_chart_witness :
    (Oneg ∈ compatibleDonorTypes Apos ↔ standardDonorCompatible Oneg Apos = true) ∧
    (Apos.abo = ABOGroup.A ∨ Apos.abo = ABOGroup.AB) :=
  ⟨compatibleDonorTypes_matches_standard_chart.1 Apos Oneg,
   compatibleDonorTypes_matches_standard_chart.2.2.2.2.1 Apos (Or.inl (by decide))⟩

/-- Claim C5: the donor-direction table is the exact inverse of the
alert-direction table: for every donor blood type d and every alert blood type
a, `a ∈ getCompatibleBloodTypes d` iff `d ∈ compatibleDonorTypes a` (all 64
cells of the two 8×8 tables agree under transposition). -/
theorem getCompatibleBloodTypes_inverse_of_compatibleDonorTypes :
    ∀ d a : BloodType, a ∈ getCompatibleBloodTypes d ↔ d ∈ compatibleDonorTypes a := by
  decide

/-- Claim C9: `getResponseRate` returns `round(100 * responded / sent)` and 0
(not a division error) when `sent = 0`; `getConversionRate` returns
`round(100 * completed / total)` over the responses list and 0 when the list
is empty. -/
theorem rates_formula_and_zero_denominator :
    (∀ a : Alert, a.getResponseRate =
      if a.notifications.sent = 0 then 0
      else round ((100 * (a.notifications.responded : ℚ)) / (a.notifications.sent : ℚ))) ∧
    (∀ a : Alert, a.getConversionRate =
      if a.responses.length = 0 then 0
      else round ((100 * ((a.responses.filter (fun r => r.donationCompleted)).length : ℚ)) /
        (a.responses.length : ℚ))) ∧
    (∀ a : Alert, a.notifications.sent = 0 → a.getResponseRate = 0) ∧
    (∀ a : Alert, a.responses = [] → a.getConversionRate = 0) := by
  have hformula : ∀ q₁ q₂ : ℚ, jsRound (q₁ / q₂ * 100) = round (100 * q₁ / q₂) := by
    intro q₁ q₂
    rw [jsRound, round_eq]
    ring_nf
  refine ⟨?_, ?_, ?_, ?_⟩
  · intro a
    unfold Alert.getResponseRate
    split
    · rfl
    · exact hformula _ _
  · intro a
    unfold Alert.getConversionRate
    by_cases h : a.responses.length = 0
    · simp [h]
    · simp only [if_neg h]
      exact hformula _ _
  · intro a h
    simp [Alert.getResponseRate, h]
  · intro a h
    simp [Alert.getConversionRate, h]

/-- Claim C9 witness: the zero-denominator cases at the fresh scenario alert,
and the formula at the same alert. -/
theorem rates_formula_and_zero_denominator_witness :
    alert0.notifications.sent = 0 ∧ alert0.getResponseRate = 0 ∧
    alert0.responses = [] ∧ alert0.getConversionRate = 0 :=
  ⟨by decide, rates_formula_and_zero_denominator.2.2.1 alert0 (by decide),
   by decide, rates_formula_and_zero_denominator.2.2.2 alert0 (by decide)⟩

/-- The donation-gap guard is off exactly when any recorded last donation is
at least 56 floored days in the past. -/
theorem gapBlocked_eq_false_iff (d : Donor) (nowMs : Int) :
    checkEligibility.gapBlocked d nowMs = false ↔
      ∀ last ∈ d.eligibility.lastDonationDate, 56 ≤ daysSinceLastDonation nowMs last := by
  unfold checkEligibility.gapBlocked
  cases h : d.eligibility.lastDonationDate with
  | none => simp
  | some last => simp [h]

/-- The donation-gap guard fires exactly when a recorded last donation is
fewer than 56 floored days in the past. -/
theorem gapBlocked_eq_true_iff (d : Donor) (nowMs : Int) :
    checkEligibility.gapBlocked d nowMs = true ↔
      ∃ last ∈ d.eligibility.lastDonationDate, daysSinceLastDonation nowMs last < 56 := by
  unfold checkEligibility.gapBlocked
  cases h : d.eligibility.lastDonationDate with
  | none => simp
  | some last => simp [h]

/-- The deferral guard is off exactly when any recorded deferral end is not in
the future. -/
theorem deferralActive_eq_false_iff (d : Donor) (nowMs : Int) :
    checkEligibility.deferralActive d nowMs = false ↔
      ∀ u ∈ d.eligibility.temporaryDeferralUntil, u ≤ nowMs := by
  unfold checkEligibility.deferralActive
  cases h : d.eligibility.temporaryDeferralUntil with
  | none => simp
  | some u => simp [h]

/-- The deferral guard fires exactly when a recorded deferral end is in the
future. -/
theorem deferralActive_eq_true_iff (d : Donor) (nowMs : Int) :
    checkEligibility.deferralActive d nowMs = true ↔
      ∃ u ∈ d.eligibility.temporaryDeferralUntil, nowMs < u := by
  unfold checkEligibility.deferralActive
  cases h : d.eligibility.temporaryDeferralUntil with
  | none => simp
  | some u => simp [h]

/-- Claim C6: `checkEligibility` applies the rules in the stated order with
the first failure winning — age in [18,65], weight ≥ 45 kg, at least 56 whole
days since `lastDonationDate` when it is set, no temporary deferral with
`until > now`, and `hasInfectiousDisease` false — and at the donation-gap
boundary a donor exactly 56 whole days after their last donation is eligible
while one at 55 days is not. -/
theorem checkEligibility_rules_in_order_and_boundary :
    (∀ (d : Donor) (now : DateTime),
      (checkEligibility d now).eligible = true ↔
        (18 ≤ computeAge now.date d.dateOfBirth ∧ computeAge now.date d.dateOfBirth ≤ 65 ∧
         45 ≤ d.medicalInfo.weight ∧
         (∀ last ∈ d.eligibility.lastDonationDate, 56 ≤ daysSinceLastDonation now.ms last) ∧
         (∀ u ∈ d.eligibility.temporaryDeferralUntil, u ≤ now.ms) ∧
         d.medicalInfo.hasInfectiousDisease = false)) ∧
    (∀ (d : Donor) (now : DateTime),
      (computeAge now.date d.dateOfBirth < 18 ∨ 65 < computeAge now.date d.dateOfBirth) →
      checkEligibility d now = ⟨false, "Age not within eligible range (18-65)"⟩) ∧
    (∀ (d : Donor) (now : DateTime),
      18 ≤ computeAge now.date d.dateOfBirth → computeAge now.date d.dateOfBirth ≤ 65 →
      d.medicalInfo.weight < 45 →
      checkEligibility d now = ⟨false, "Weight below minimum requirement (45kg)"⟩) ∧
    (∀ (d : Donor) (now : DateTime) (last : Int),
      18 ≤ computeAge now.date d.dateOfBirth → computeAge now.date d.dateOfBirth ≤ 65 →
      45 ≤ d.medicalInfo.weight →
      d.eligibility.lastDonationDate = some last →
      daysSinceLastDonation now.ms last < 56 →
      checkEligibility d now =
        ⟨false, "Must wait " ++ toString (56 - daysSinceLastDonation now.ms last) ++
          " more days since last donation"⟩) ∧
    (∀ (d : Donor) (now : DateTime) (u : Int),
      18 ≤ computeAge now.date d.dateOfBirth → computeAge now.date d.dateOfBirth ≤ 65 →
      45 ≤ d.medicalInfo.weight →
      (∀ last ∈ d.eligibility.lastDonationDate, 56 ≤ daysSinceLastDonation now.ms last) →
      d.eligibility.temporaryDeferralUntil = some u → now.ms < u →
      checkEligibility d now = ⟨false, d.eligibility.temporaryDeferralReason⟩) ∧
    (∀ (d : Donor) (now : DateTime),
      18 ≤ computeAge now.date d.dateOfBirth → computeAge now.date d.dateOfBirth ≤ 65 →
      45 ≤ d.medicalInfo.weight →
      (∀ last ∈ d.eligibility.lastDonationDate, 56 ≤ daysSinceLastDonation now.ms last) →
      (∀ u ∈ d.eligibility.temporaryDeferralUntil, u ≤ now.ms) →
      d.medicalInfo.hasInfectiousDisease = true →
      checkEligibility d now = ⟨false, "Medical condition prevents donation"⟩) ∧
    (checkEligibility donor56 now0 = ⟨true, "Eligible for donation"⟩ ∧
     checkEligibility donor55 now0 =
       ⟨false, "Must wait 1 more days since last donation"⟩) := by
  refine ⟨?_, ?_, ?_, ?_, ?_, ?_, by decide, by decide⟩
  · intro d now
    unfold checkEligibility
    simp only [Bool.or_eq_true, decide_eq_true_eq]
    by_cases h1 : computeAge now.date d.dateOfBirth < 18 ∨ computeAge now.date d.dateOfBirth > 65
    · rw [if_pos h1]
      apply iff_of_false (by simp)
      rintro ⟨ha, hb, -⟩
      omega
    · rw [if_neg h1]
      by_cases h2 : d.medicalInfo.weight < 45
      · rw [if_pos h2]
        apply iff_of_false (by simp)
        rintro ⟨-, -, hw, -⟩
        omega
      · rw [if_neg h2]
        cases h3 : checkEligibility.gapBlocked d now.ms with
        | true =>
          rw [if_pos (rfl : true = true)]
          apply iff_of_false (by simp)
          rw [gapBlocked_eq_true_iff] at h3
          obtain ⟨last, hmem, hlt⟩ := h3
          rintro ⟨-, -, -, hgap, -⟩
          have := hgap last hmem
          omega
        | false =>
          rw [if_neg (by simp)]
          cases h4 : checkEligibility.deferralActive d now.ms with
          | true =>
            rw [if_pos (rfl : true = true)]
            apply iff_of_false (by simp)
            rw [deferralActive_eq_true_iff] at h4
            obtain ⟨u, hmem, hlt⟩ := h4
            rintro ⟨-, -, -, -, hdef, -⟩
            have := hdef u hmem
            omega
          | false =>
            rw [if_neg (by simp)]
            by_cases h5 : d.medicalInfo.hasInfectiousDisease = true
            · rw [if_pos h5]
              apply iff_of_false (by simp)
              rintro ⟨-, -, -, -, -, hdis⟩
              simp [hdis] at h5
            · rw [if_neg h5]
              apply iff_of_true (by simp)
              refine ⟨by omega, by omega, by omega, ?_, ?_, ?_⟩
              · exact (gapBlocked_eq_false_iff d now.ms).mp h3
              · exact (deferralActive_eq_false_iff d now.ms).mp h4
              · simpa using h5
  · intro d now h
    unfold checkEligibility
    simp only [Bool.or_eq_true, decide_eq_true_eq]
    rw [if_pos h]
  · intro d now h1 h2 h3
    unfold checkEligibility
    simp only [Bool.or_eq_true, decide_eq_true_eq]
    rw [if_neg (by omega), if_pos h3]
  · intro d now last h1 h2 h3 hlast hdays
    unfold checkEligibility
    simp only [Bool.or_eq_true, decide_eq_true_eq]
    rw [if_neg (by omega), if_neg (by omega),
      if_pos ((gapBlocked_eq_true_iff d now.ms).mpr ⟨last, by simp [hlast], hdays⟩)]
    unfold checkEligibility.waitReason
    rw [hlast]
  · intro d now u h1 h2 h3 hgap hu hfut
    unfold checkEligibility
    simp only [Bool.or_eq_true, decide_eq_true_eq]
    rw [if_neg (by omega), if_neg (by omega),
      if_neg (by simp only [Bool.not_eq_true]
                 exact (gapBlocked_eq_false_iff d now.ms).mpr hgap),
      if_pos ((deferralActive_eq_true_iff d now.ms).mpr ⟨u, by simp [hu], hfut⟩)]
  · intro d now h1 h2 h3 hgap hdef hdisease
    unfold checkEligibility
    simp only [Bool.or_eq_true, decide_eq_true_eq]
    rw [if_neg (by omega), if_neg (by omega),
      if_neg (by simp only [Bool.not_eq_true]
                 exact (gapBlocked_eq_false_iff d now.ms).mpr hgap),
      if_neg (by simp only [Bool.not_eq_true]
                 exact (deferralActive_eq_false_iff d now.ms).mpr hdef),
      if_pos hdisease]

/-- Claim C6 witness: the first-failure rules applied at concrete donors — an
under-age donor gets the age reason, and the 55-day donor gets the wait
reason. -/
theorem checkEligibility_rules_witness :
    checkEligibility donorYoung now0 = ⟨false, "Age not within eligible range (18-65)"⟩ ∧
    checkEligibility donor55 now0 = ⟨false, "Must wait 1 more days since last donation"⟩ :=
  ⟨checkEligibility_rules_in_order_and_boundary.2.1 donorYoung now0 (by decide),
   checkEligibility_rules_in_order_and_boundary.2.2.2.2.2.2.2⟩

/-- The respond route's validator admits a response type exactly when it is
not `donated`. -/
theorem mem_allowed_iff (rt : ResponseType) :
    rt ∈ allowedDonorResponseTypes ↔ rt ≠ ResponseType.donated := by
  cases rt <;> simp [allowedDonorResponseTypes]

/-- When the donated-units branch of `addResponse` is not taken (response not
`donated`, or no donation details), every alert field other than the appended
response and the responded bookkeeping is unchanged. -/
theorem addResponse_frame_of_no_donation (a : Alert) (donorId : Nat)
    (rt : ResponseType) (extra : AdditionalData) (nowMs : Int)
    (h : (rt == ResponseType.donated && extra.donationDetails.isSome) = false) :
    (a.addResponse donorId rt extra nowMs).unitsCollected = a.unitsCollected ∧
    (a.addResponse donorId rt extra nowMs).status = a.status ∧
    (a.addResponse donorId rt extra nowMs).expiresAt = a.expiresAt ∧
    (a.addResponse donorId rt extra nowMs).alertId = a.alertId ∧
    (a.addResponse donorId rt extra nowMs).hospital = a.hospital ∧
    (a.addResponse donorId rt extra nowMs).bloodType = a.bloodType ∧
    (a.addResponse donorId rt extra nowMs).urgencyLevel = a.urgencyLevel ∧
    (a.addResponse donorId rt extra nowMs).unitsNeeded = a.unitsNeeded ∧
    (a.addResponse donorId rt extra nowMs).location = a.location ∧
    (a.addResponse donorId rt extra nowMs).sharing = a.sharing ∧
    (a.addResponse donorId rt extra nowMs).notifications.sent = a.notifications.sent ∧
    (a.addResponse donorId rt extra nowMs).notifications.opened = a.notifications.opened ∧
    (a.addResponse donorId rt extra nowMs).notifications.responded =
      a.notifications.responded + 1 ∧
    (a.addResponse donorId rt extra nowMs).responses.length = a.responses.length + 1 := by
  simp [Alert.addResponse, h]

/-- Claim C1: through the donor respond endpoint, a second response by a donor
who already has a response recorded on the alert fails with the
already-responded conflict, and the responses list stays at length 1 (the
second response is not appended). -/
theorem respond_duplicate_is_conflict :
    (∀ (d : Donor) (a : Alert) (req : RespondRequest) (nowMs : Int),
      req.responseType ≠ ResponseType.donated →
      a.status = AlertStatus.active →
      (∃ r ∈ a.responses, r.donor = d.donorId) →
      respondToAlert d a req nowMs = Except.error RespondError.alreadyResponded) ∧
    (∀ (d : Donor) (a : Alert) (req1 req2 : RespondRequest) (n1 n2 : Int),
      a.status = AlertStatus.active →
      a.responses = [] →
      req1.responseType ≠ ResponseType.donated →
      req2.responseType ≠ ResponseType.donated →
      ∃ a1, respondToAlert d a req1 n1 = Except.ok a1 ∧
        a1.responses.length = 1 ∧
        respondToAlert d a1 req2 n2 = Except.error RespondError.alreadyResponded) := by
  constructor
  · rintro d a req nowMs hv hact ⟨r, hr, hdonor⟩
    unfold respondToAlert
    rw [if_neg (by simp [(mem_allowed_iff req.responseType).mpr hv]),
      if_neg (by simp [hact]),
      if_pos (by
        simp only [List.find?_isSome]
        exact ⟨r, hr, by simp [hdonor]⟩)]
  · intro d a req1 req2 n1 n2 hact h0 hv1 hv2
    refine ⟨a.addResponse d.donorId req1.responseType
      { message := req1.message
        estimatedArrival := req1.estimatedArrival
        donationDetails := none } n1, ?_, ?_, ?_⟩
    · unfold respondToAlert
      rw [if_neg (by simp [(mem_allowed_iff req1.responseType).mpr hv1]),
        if_neg (by simp [hact]), if_neg (by simp [h0])]
    · simp [Alert.addResponse, h0]
    · unfold respondToAlert
      rw [if_neg (by simp [(mem_allowed_iff req2.responseType).mpr hv2]),
        if_neg (by simp [Alert.addResponse, hact]),
        if_pos (by simp [Alert.addResponse, h0])]

/-- Claim C1 witness: the two-call scenario at the concrete fixture. -/
theorem respond_duplicate_is_conflict_witness :
    ∃ a1, respondToAlert baseDonor alert0
        { responseType := ResponseType.interested, message := none, estimatedArrival := none }
        t0 = Except.ok a1 ∧
      a1.responses.length = 1 ∧
      respondToAlert baseDonor a1
        { responseType := ResponseType.committed, message := none, estimatedArrival := none }
        t0 = Except.error RespondError.alreadyResponded :=
  respond_duplicate_is_conflict.2 baseDonor alert0 _ _ t0 t0
    (by decide) (by decide) (by decide) (by decide)

/-- Claim C2: recording a `donated` response with donation details increments
`unitsCollected` from c to c+1 and sets the status to `fulfilled` when
c+1 ≥ unitsNeeded and to `partially_fulfilled` otherwise; the §8 scenario
(3 units needed, three successive donated responses) passes through
`partially_fulfilled` at 2 units and ends `fulfilled` at 3, and a
critical-urgency alert created at t0 expires at t0 + 24h. -/
theorem addResponse_donated_fulfillment :
    (∀ (a : Alert) (donorId : Nat) (extra : AdditionalData) (nowMs : Int),
      extra.donationDetails.isSome = true →
      1 ≤ a.unitsNeeded → 0 ≤ a.unitsCollected →
      (a.addResponse donorId ResponseType.donated extra nowMs).unitsCollected =
        a.unitsCollected + 1 ∧
      (a.addResponse donorId ResponseType.donated extra nowMs).status =
        (if a.unitsNeeded ≤ a.unitsCollected + 1 then AlertStatus.fulfilled
         else AlertStatus.partiallyFulfilled)) ∧
    (alert0.expiresAt = t0 + 24 * 60 * 60 * 1000 ∧
     alertAfterTwo.unitsCollected = 2 ∧
     alertAfterTwo.status = AlertStatus.partiallyFulfilled ∧
     alertAfterThree.unitsCollected = 3 ∧
     alertAfterThree.status = AlertStatus.fulfilled) := by
  constructor
  · intro a donorId extra nowMs hdet hneed hcoll
    constructor
    · simp [Alert.addResponse, hdet]
    · simp only [Alert.addResponse, hdet]
      by_cases hf : a.unitsNeeded ≤ a.unitsCollected + 1
      · simp [hf]
      · simp [hf]
        omega
  · refine ⟨by decide, by decide, by decide, by decide, by decide⟩

/-- Claim C2 witness: the general donated-response rule applied at the
concrete scenario alert. -/
theorem addResponse_donated_fulfillment_witness :
    (alert0.addResponse 2 ResponseType.donated donatedData t0).unitsCollected =
      alert0.unitsCollected + 1 ∧
    (alert0.addResponse 2 ResponseType.donated donatedData t0).status =
      (if alert0.unitsNeeded ≤ alert0.unitsCollected + 1 then AlertStatus.fulfilled
       else AlertStatus.partiallyFulfilled) :=
  addResponse_donated_fulfillment.1 alert0 2 donatedData t0 (by decide) (by decide) (by decide)

/-- Claim C10: the donor respond endpoint never changes `unitsCollected`,
`status` or `expiresAt` — its validator admits only the four non-donated
response types, it rejects any alert that is not `active`, so the donated
branch of `addResponse` is unreachable from it; a successful call changes
only the responses list and the notification bookkeeping. -/
theorem respond_endpoint_frame :
    (∀ (d : Donor) (a : Alert) (req : RespondRequest) (nowMs : Int),
      req.responseType = ResponseType.donated →
      respondToAlert d a req nowMs = Except.error RespondError.invalidResponseType) ∧
    (∀ (d : Donor) (a : Alert) (req : RespondRequest) (nowMs : Int),
      req.responseType ≠ ResponseType.donated → a.status ≠ AlertStatus.active →
      respondToAlert d a req nowMs = Except.error RespondError.alertNotActive) ∧
    (∀ (d : Donor) (a : Alert) (req : RespondRequest) (nowMs : Int) (a1 : Alert),
      respondToAlert d a req nowMs = Except.ok a1 →
      a.status = AlertStatus.active ∧ req.responseType ≠ ResponseType.donated ∧
      a1.unitsCollected = a.unitsCollected ∧ a1.status = a.status ∧
      a1.expiresAt = a.expiresAt ∧ a1.alertId = a.alertId ∧
      a1.hospital = a.hospital ∧ a1.bloodType = a.bloodType ∧
      a1.urgencyLevel = a.urgencyLevel ∧ a1.unitsNeeded = a.unitsNeeded ∧
      a1.location = a.location ∧ a1.sharing = a.sharing ∧
      a1.notifications.sent = a.notifications.sent ∧
      a1.notifications.opened = a.notifications.opened ∧
      a1.notifications.responded = a.notifications.responded + 1 ∧
      a1.responses.length = a.responses.length + 1) := by
  refine ⟨?_, ?_, ?_⟩
  · intro d a req nowMs h
    unfold respondToAlert
    rw [if_pos (by simp [h, allowedDonorResponseTypes])]
  · intro d a req nowMs hv hs
    unfold respondToAlert
    rw [if_neg (by simp [(mem_allowed_iff req.responseType).mpr hv]),
      if_pos (by simp [hs])]
  · intro d a req nowMs a1 h
    unfold respondToAlert at h
    by_cases hv : (!allowedDonorResponseTypes.contains req.responseType) = true
    · rw [if_pos hv] at h
      exact absurd h (by simp)
    · rw [if_neg hv] at h
      by_cases hs : (a.status != AlertStatus.active) = true
      · rw [if_pos hs] at h
        exact absurd h (by simp)
      · rw [if_neg hs] at h
        by_cases hd : (a.responses.find? (fun r => r.donor == d.donorId)).isSome = true
        · rw [if_pos hd] at h
          exact absurd h (by simp)
        · rw [if_neg hd] at h
          rw [Except.ok.injEq] at h
          subst h
          have hact : a.status = AlertStatus.active := by
            simpa [bne_iff_ne] using hs
          have hrt : req.responseType ≠ ResponseType.donated :=
            (mem_allowed_iff req.responseType).mp (by simpa using hv)
          have hframe := addResponse_frame_of_no_donation a d.donorId req.responseType
            { message := req.message
              estimatedArrival := req.estimatedArrival
              donationDetails := none } nowMs (by simp)
          exact ⟨hact, hrt, hframe.1, hframe.2.1, hframe.2.2.1, hframe.2.2.2.1,
            hframe.2.2.2.2.1, hframe.2.2.2.2.2.1, hframe.2.2.2.2.2.2.1,
            hframe.2.2.2.2.2.2.2.1, hframe.2.2.2.2.2.2.2.2.1,
            hframe.2.2.2.2.2.2.2.2.2.1, hframe.2.2.2.2.2.2.2.2.2.2.1,
            hframe.2.2.2.2.2.2.2.2.2.2.2.1, hframe.2.2.2.2.2.2.2.2.2.2.2.2.1,
            hframe.2.2.2.2.2.2.2.2.2.2.2.2.2⟩

/-- Claim C10 witness: the frame conditions at a concrete successful call, and
the two rejection rules at concrete inputs. -/
theorem respond_endpoint_frame_witness :
    (respondToAlert baseDonor
        { alert0 with status := AlertStatus.cancelled }
        { responseType := ResponseType.interested, message := none, estimatedArrival := none }
        t0 = Except.error RespondError.alertNotActive) ∧
    (respondToAlert baseDonor alert0
        { responseType := ResponseType.donated, message := none, estimatedArrival := none }
        t0 = Except.error RespondError.invalidResponseType) :=
  ⟨respond_endpoint_frame.2.1 baseDonor _ _ t0 (by decide) (by decide),
   respond_endpoint_frame.1 baseDonor alert0 _ t0 (by decide)⟩

/-- Boolean characterization of the per-candidate matching filter. -/
theorem donorPassesFilters_iff (a : Alert) (now : DateTime) (d : Donor) :
    donorPassesFilters a now d = true ↔
      ((checkEligibility d now).eligible = true ∧
       a.location.searchRadius ≤ d.preferences.maxTravelDistance ∧
       (∀ r ∈ a.responses, r.donor ≠ d.donorId) ∧
       (d.preferences.emergencyOnly = true → a.urgencyLevel = UrgencyLevel.critical)) := by
  unfold donorPassesFilters
  cases he : (checkEligibility d now).eligible with
  | false =>
    rw [if_pos (by simp)]
    apply iff_of_false (by simp)
    rintro ⟨hel, -⟩
    exact absurd hel (by simp)
  | true =>
    rw [if_neg (by simp)]
    by_cases h2 : d.preferences.maxTravelDistance < a.location.searchRadius
    · rw [if_pos h2]
      apply iff_of_false (by simp)
      rintro ⟨-, hr, -⟩
      omega
    · rw [if_neg h2]
      cases ha : a.responses.any (fun r => r.donor == d.donorId) with
      | true =>
        rw [if_pos rfl]
        apply iff_of_false (by simp)
        simp only [List.any_eq_true] at ha
        obtain ⟨r, hr, hb⟩ := ha
        rintro ⟨-, -, hno, -⟩
        exact hno r hr (by simpa using hb)
      | false =>
        rw [if_neg (by simp)]
        cases hem : d.preferences.emergencyOnly &&
            !(a.urgencyLevel == UrgencyLevel.critical) with
        | true =>
          rw [if_pos rfl]
          apply iff_of_false (by simp)
          simp only [Bool.and_eq_true, Bool.not_eq_true', beq_eq_false_iff_ne] at hem
          rintro ⟨-, -, -, himpl⟩
          exact hem.2 (himpl hem.1)
        | false =>
          rw [if_neg (by simp)]
          apply iff_of_true rfl
          simp only [List.any_eq_false] at ha
          simp only [Bool.and_eq_false_iff, Bool.not_eq_false', beq_iff_eq] at hem
          refine ⟨rfl, by omega, ?_, ?_⟩
          · intro r hr
            simpa using ha r hr
          · intro hemo
            rcases hem with hfalse | hcrit
            · rw [hemo] at hfalse
              cases hfalse
            · exact hcrit

/-- Claim C7: `findEligibleDonors` keeps a proximity-query candidate exactly
when the re-run eligibility evaluator passes, the donor's travel ceiling
covers the alert's search radius, the donor has no response recorded on the
alert, and the donor is not emergency-only on a non-critical alert; in
particular an eligible blood-compatible donor with `maxTravelDistance` 10 is
excluded from an alert with `searchRadius` 50. -/
theorem findEligibleDonors_membership :
    (∀ (a : Alert) (now : DateTime) (cands : List Donor) (d : Donor),
      d ∈ findEligibleDonors a now cands ↔
        (d ∈ cands ∧ (checkEligibility d now).eligible = true ∧
         a.location.searchRadius ≤ d.preferences.maxTravelDistance ∧
         (∀ r ∈ a.responses, r.donor ≠ d.donorId) ∧
         (d.preferences.emergencyOnly = true → a.urgencyLevel = UrgencyLevel.critical))) ∧
    ((checkEligibility donorTravel10 now0).eligible = true ∧
     donorTravel10.medicalInfo.bloodGroup ∈ compatibleDonorTypes alertABneg.bloodType ∧
     donorTravel10.preferences.maxTravelDistance < alertABneg.location.searchRadius ∧
     donorTravel10 ∉ findEligibleDonors alertABneg now0 [donorTravel10]) := by
  constructor
  · intro a now cands d
    unfold findEligibleDonors
    rw [List.mem_filter, donorPassesFilters_iff]
  · refine ⟨by decide, by decide, by decide, by decide⟩

/-- Claim C7 witness: the membership characterization applied at the concrete
scenario, showing the travel-ceiling clause is what fails. -/
theorem findEligibleDonors_membership_witness :
    ¬(donorTravel10 ∈ [donorTravel10] ∧
      (checkEligibility donorTravel10 now0).eligible = true ∧
      alertABneg.location.searchRadius ≤ donorTravel10.preferences.maxTravelDistance ∧
      (∀ r ∈ alertABneg.responses, r.donor ≠ donorTravel10.donorId) ∧
      (donorTravel10.preferences.emergencyOnly = true →
        alertABneg.urgencyLevel = UrgencyLevel.critical)) := by
  intro h
  exact absurd ((findEligibleDonors_membership.1 alertABneg now0
    [donorTravel10] donorTravel10).mpr h) (by decide)

/-- In the success branch of the share loop, the alert was not yet shared with
the target, so the target's sharing record is the appended one. -/
theorem shareWithHospital_success_record (requester : Hospital) (a : Alert)
    (targetId : Nat) (message : Option String) (nowMs : Int)
    (h : (shareWithHospital requester a targetId message nowMs).2.success = true) :
    (shareWithHospital requester a targetId message nowMs).1.sharing.sharedWith.find?
        (fun s => s.hospital == targetId) =
      some { hospital := targetId
             sharedAt := nowMs
             response := none
             unitsPromised := 0
             unitsDelivered := 0
             notes := message } := by
  unfold shareWithHospital at h ⊢
  by_cases hp : (requester.partnerships.any (fun p =>
      p.hospitalId == targetId && p.statusActive &&
        (p.ptype == PartnershipType.bloodSharing ||
         p.ptype == PartnershipType.emergencyBackup))) = true
  · rw [if_neg (by simp [hp])] at h ⊢
    cases hs : a.sharing.sharedWith.any (fun s => s.hospital == targetId) with
    | true =>
      rw [if_pos hs] at h
      exact absurd h (by simp)
    | false =>
      rw [if_neg (by simp)]
      have hnone : a.sharing.sharedWith.find? (fun s => s.hospital == targetId) = none := by
        rw [List.find?_eq_none]
        intro s hsmem
        simp only [List.any_eq_false] at hs
        simpa using hs s hsmem
      simp [List.find?_append, hnone]
  · rw [if_pos (by simpa using hp)] at h
    exact absurd h (by simp)

/-- Claim C3: evaluation of the sharing code on a fresh share.  A successful
`shareAlert` pushes a sharing record whose `response` field is absent — the
route pushes `{hospital, notes}` and the schema has no default for
`response` — so the target hospital's very first `respondToShare` is rejected
by the `response != pending` guard with the already-responded conflict,
contrary to the stated behavior. -/
theorem share_then_first_respond_rejected :
    (∀ (requester : Hospital) (a : Alert) (responder : Hospital)
       (message : Option String) (nowMs : Int) (resp : ShareResponse)
       (up : Option Int) (notes : Option String),
      (shareWithHospital requester a responder.hospitalId message nowMs).2.success = true →
      resp ≠ ShareResponse.pending →
      respondToShare (shareWithHospital requester a responder.hospitalId message nowMs).1
          responder resp up notes =
        Except.error ShareRespondError.alreadyResponded) ∧
    ((shareWithHospital hospitalA alert0 7 none t0).2.success = true ∧
     (shareWithHospital hospitalA alert0 7 none t0).1.sharing.sharedWith.map
        (fun s => (s.hospital, s.response)) = [(7, none)] ∧
     respondToShare (shareWithHospital hospitalA alert0 7 none t0).1 hospitalB
        ShareResponse.accepted (some 2) none =
       Except.error ShareRespondError.alreadyResponded) := by
  constructor
  · intro requester a responder message nowMs resp up notes hsucc hresp
    unfold respondToShare
    rw [if_neg (by simp [hresp]),
      shareWithHospital_success_record requester a responder.hospitalId message nowMs hsucc]
    simp
  · refine ⟨by decide, by decide, by rfl⟩

/-- Claim C3 witness: the general dead-endpoint fact applied at the concrete
share fixture. -/
theorem share_then_first_respond_rejected_witness :
    respondToShare (shareWithHospital hospitalA alert0 hospitalB.hospitalId none t0).1
        hospitalB ShareResponse.accepted (some 2) none =
      Except.error ShareRespondError.alreadyResponded :=
  share_then_first_respond_rejected.1 hospitalA alert0 hospitalB none t0
    ShareResponse.accepted (some 2) none (by decide) (by decide)

/-- The donor loop of the dispatcher never touches the aggregate
`notifications.sent` counter (it only appends `sentTo` records and updates the
results accumulator). -/
theorem dispatch_foldl_preserves_sent (sendOk : Nat → Channel → Bool) (nowMs : Int) :
    ∀ (donors : List Donor) (acc : Alert × DispatchResults),
      (donors.foldl (dispatchStep sendOk nowMs) acc).1.notifications.sent =
        acc.1.notifications.sent := by
  intro donors
  induction donors with
  | nil => intro acc; rfl
  | cons d rest ih =>
    intro acc
    rw [List.foldl_cons, ih]
    unfold dispatchStep
    rcases hsd : sendToDonor sendOk d channelOrder acc.2 with ⟨r, completed⟩
    cases completed <;> simp

/-- Claim C8: `sendBloodShortageAlert` increments `alert.notifications.sent`
by exactly the number of donors in the list (not the number of messages), and
when a channel send for a donor throws, the remaining channel sends for that
donor are skipped (no sent increment at or past the failing channel) while the
failed counter of every channel the donor has enabled is incremented. -/
theorem dispatch_sent_and_failure_bookkeeping :
    (∀ (sendOk : Nat → Channel → Bool) (a : Alert) (donors : List Donor) (nowMs : Int),
      (sendBloodShortageAlert sendOk a donors nowMs).1.notifications.sent =
        a.notifications.sent + donors.length) ∧
    (∀ (sendOk : Nat → Channel → Bool) (d : Donor) (r : DispatchResults),
      (∃ c, channelEnabled d c = true ∧ sendOk d.donorId c = false) →
      (sendToDonor sendOk d channelOrder r).2 = false ∧
      failedCount (sendToDonor sendOk d channelOrder r).1 Channel.email =
        failedCount r Channel.email +
          (if channelEnabled d Channel.email = true then 1 else 0) ∧
      failedCount (sendToDonor sendOk d channelOrder r).1 Channel.sms =
        failedCount r Channel.sms +
          (if channelEnabled d Channel.sms = true then 1 else 0) ∧
      failedCount (sendToDonor sendOk d channelOrder r).1 Channel.push =
        failedCount r Channel.push +
          (if channelEnabled d Channel.push = true then 1 else 0)) ∧
    (∀ (sendOk : Nat → Channel → Bool) (d : Donor) (r : DispatchResults),
      sentCount (sendToDonor sendOk d channelOrder r).1 Channel.email =
        sentCount r Channel.email +
          (if channelEnabled d Channel.email = true ∧
              sendOk d.donorId Channel.email = true then 1 else 0) ∧
      sentCount (sendToDonor sendOk d channelOrder r).1 Channel.sms =
        sentCount r Channel.sms +
          (if channelEnabled d Channel.sms = true ∧ sendOk d.donorId Channel.sms = true ∧
              (channelEnabled d Channel.email = true →
                sendOk d.donorId Channel.email = true) then 1 else 0) ∧
      sentCount (sendToDonor sendOk d channelOrder r).1 Channel.push =
        sentCount r Channel.push +
          (if channelEnabled d Channel.push = true ∧ sendOk d.donorId Channel.push = true ∧
              (channelEnabled d Channel.email = true →
                sendOk d.donorId Channel.email = true) ∧
              (channelEnabled d Channel.sms = true →
                sendOk d.donorId Channel.sms = true) then 1 else 0)) := by
  refine ⟨?_, ?_, ?_⟩
  · intro sendOk a donors nowMs
    unfold sendBloodShortageAlert
    simp only []
    rw [dispatch_foldl_preserves_sent]
  · rintro sendOk d r ⟨c, hen, hko⟩
    rcases d with ⟨id, dob, mi, el, ⟨⟨e, s, p⟩, mtd, eo⟩⟩
    simp only [channelEnabled] at hen ⊢
    cases h1 : sendOk id Channel.email <;> cases h2 : sendOk id Channel.sms <;>
      cases h3 : sendOk id Channel.push <;> cases e <;> cases s <;> cases p <;>
      cases c <;>
      simp_all [sendToDonor, channelOrder, channelEnabled, bumpSent,
        incrementFailedCount, failedCount]
  · intro sendOk d r
    rcases d with ⟨id, dob, mi, el, ⟨⟨e, s, p⟩, mtd, eo⟩⟩
    simp only [channelEnabled]
    cases h1 : sendOk id Channel.email <;> cases h2 : sendOk id Channel.sms <;>
      cases h3 : sendOk id Channel.push <;> cases e <;> cases s <;> cases p <;>
      simp_all [sendToDonor, channelOrder, channelEnabled, bumpSent,
        incrementFailedCount, sentCount]

/-- Claim C8 witness: the failure bookkeeping applied at a concrete donor
whose sms send throws while email succeeds. -/
theorem dispatch_failure_bookkeeping_witness :
    (sendToDonor (fun _ c => c == Channel.email) baseDonor channelOrder
      emptyDispatchResults).2 = false ∧
    failedCount (sendToDonor (fun _ c => c == Channel.email) baseDonor channelOrder
        emptyDispatchResults).1 Channel.email =
      failedCount emptyDispatchResults Channel.email +
        (if channelEnabled baseDonor Channel.email = true then 1 else 0) :=
  ⟨(dispatch_sent_and_failure_bookkeeping.2.1 (fun _ c => c == Channel.email)
      baseDonor emptyDispatchResults ⟨Channel.sms, by decide, by decide⟩).1,
   (dispatch_sent_and_failure_bookkeeping.2.1 (fun _ c => c == Channel.email)
      baseDonor emptyDispatchResults ⟨Channel.sms, by decide, by decide⟩).2.1⟩

end BloodAlert
